import Mathlib

/-!
Verification of the j5 hardware-abstraction layer specification.

The repository sources available here are the test suite plus two small
component modules; the backend implementation modules themselves
(j5/backends/hardware/sb/arduino.py, j5/backends/hardware/j5/serial.py,
j5/backends/hardware/j5/raw_usb.py, j5/backends/backend.py) are not
present.  Every definition below that embeds one of those missing modules
is therefore modelled from the specification (spec.md), with the test
suite fixing the concrete wire format and observable behaviour.
-/

namespace J5

/-- Modelled from the spec: the GPIOPinMode enumeration of
j5.components (mode of a GPIO pin), listed in section 3 of the spec. -/
inductive GPIOPinMode where
  | DIGITAL_INPUT
  | DIGITAL_INPUT_PULLUP
  | DIGITAL_INPUT_PULLDOWN
  | DIGITAL_OUTPUT
  | ANALOGUE_INPUT
  | ANALOGUE_OUTPUT
  | PWM_OUTPUT
  deriving DecidableEq

/-- Modelled from the spec: the error taxonomy of section 7.
ContractViolation is definition-time and fatal; NotSupportedByHardware and
PreconditionViolation are local precondition errors raised before any I/O
(PreconditionViolation stands for the ValueError the tests expect);
CommunicationError covers firmware failure responses, malformed payloads,
transport faults and unsupported firmware versions. -/
inductive JError where
  | ContractViolation (msg : String)
  | NotSupportedByHardware (msg : String)
  | PreconditionViolation (msg : String)
  | CommunicationError (msg : String)
  deriving DecidableEq

/-- Modelled from the spec: the per-pin local mirror (PinDescriptor):
current mode and last-known digital state. -/
structure DigitalPinData where
  mode : GPIOPinMode
  state : Bool
  deriving DecidableEq

/-- Modelled from the spec: the local state of the SBArduinoHardwareBackend
protocol engine, the authoritative local view of each digital pin.
Digital-capable pins are identifiers 2 to 13; the map is total on Nat for
convenience, the operations only ever consult identifiers 2 to 13. -/
structure SBArduinoState where
  digital_pins : Nat → DigitalPinData

/-- Pointwise update of the pin map. -/
def updatePin (pins : Nat → DigitalPinData) (i : Nat) (d : DigitalPinData) :
    Nat → DigitalPinData :=
  fun j => if j = i then d else pins j

/-- Digital-capable pin identifiers are 2 to 13. -/
def isDigitalPin (i : Nat) : Bool := 2 ≤ i && i < 14

/-- Analogue-capable pin identifiers are 14 to 19. -/
def isAnaloguePin (i : Nat) : Bool := 14 ≤ i && i < 20

/-- Result of one engine operation: the outcome (or the error raised), the
resulting local state, the bytes written to the transport during the
operation, and the unread remainder of the response stream.  Local
precondition errors leave sent empty; per section 8 of the spec a failed
exchange leaves no partial state change, so on error the state equals the
state the operation started from. -/
structure OpResult (α : Type) where
  result : Except JError α
  state : SBArduinoState
  sent : String
  resp : List String

/-- Break a character sequence at its first space: the characters before
it and the characters after it. -/
def breakSpace : List Char → List Char × List Char
  | [] => ([], [])
  | c :: cs =>
    if c = ' ' then ([], cs)
    else
      let p := breakSpace cs
      (c :: p.1, p.2)

/-- Split a response line at its first space into a code token and the
remaining parameter text (the split of the line-protocol reader). -/
def splitFirst (line : String) : String × String :=
  let p := breakSpace line.data
  (⟨p.1⟩, ⟨p.2⟩)

/-- Split a character sequence on every occurrence of a separator. -/
def splitOnChar (sep : Char) : List Char → List (List Char)
  | [] => [[]]
  | c :: cs =>
    let r := splitOnChar sep cs
    if c = sep then [] :: r
    else
      match r with
      | [] => [[c]]
      | h :: t => (c :: h) :: t

/-- Parse a non-empty all-digit character sequence as a decimal natural
number; anything else fails. -/
def charsToNatAux : List Char → Nat → Option Nat
  | [], acc => some acc
  | c :: cs, acc =>
    let n := c.toNat
    if 48 ≤ n && n ≤ 57 then charsToNatAux cs (acc * 10 + (n - 48))
    else none

/-- Parse a decimal numeral. -/
def charsToNat? (cs : List Char) : Option Nat :=
  match cs with
  | [] => none
  | _ => charsToNatAux cs 0

/-- Modelled from the spec: the response-reading loop of the missing
serial command helper.  Lines are consumed until a success terminator;
a line starting with the symbol plus is the success terminator, minus is
a firmware failure carrying the reason, greater-than contributes a data
payload, hash is a comment to be discarded, anything else is a
communication error.  An exhausted stream is a timeout, also a
communication error. -/
def readResponse : List String → Except JError (List String × List String)
  | [] => .error (.CommunicationError "Timeout on serial read.")
  | line :: rest =>
    let cp := splitFirst line
    if cp.1 = "+" then .ok ([], rest)
    else if cp.1 = "-" then .error (.CommunicationError ("Arduino error: " ++ cp.2))
    else if cp.1 = ">" then
      match readResponse rest with
      | .ok (results, rem) => .ok (cp.2 :: results, rem)
      | .error e => .error e
    else if cp.1 = "#" then readResponse rest
    else .error (.CommunicationError ("Invalid response from Arduino: " ++ line))

/-- Modelled from the spec: write one newline-terminated command message
and read its response.  Returns the collected data payloads and the
remaining response stream. -/
def command (message : String) (resp : List String) :
    Except JError (List String × List String) :=
  readResponse resp

/-- Wire code for a pin mode, together with the output level for output
mode: Z tri-state input, P pull-up input, H or L output high or low
(section 4.3 wire format table). -/
def modeCode (mode : GPIOPinMode) (state : Bool) : Option String :=
  match mode with
  | .DIGITAL_INPUT => some "Z"
  | .DIGITAL_INPUT_PULLUP => some "P"
  | .DIGITAL_OUTPUT => some (if state then "H" else "L")
  | _ => none

/-- Modelled from the spec: send the mode command for one digital pin,
reflecting the locally stored mode and, for output mode, the stored
level.  Entering DIGITAL_OUTPUT sends the last-known output level. -/
def update_digital_pin (pins : Nat → DigitalPinData) (i : Nat)
    (resp : List String) : Except JError (String × List String) :=
  match modeCode (pins i).mode (pins i).state with
  | none => .error (.PreconditionViolation "Digital pin mode not settable")
  | some code =>
    let message := "W " ++ toString i ++ " " ++ code ++ "\n"
    match command message resp with
    | .error e => .error e
    | .ok (_, rest) => .ok (message, rest)

/-- The three pin modes a digital-capable pin supports. -/
def digitalPinModes : List GPIOPinMode :=
  [.DIGITAL_INPUT, .DIGITAL_INPUT_PULLUP, .DIGITAL_OUTPUT]

/-- Modelled from the spec: set_gpio_pin_mode of the missing Arduino
backend.  A requested transition is validated against the static
per-identifier capability table before any bytes are sent: digital pins
accept the three digital modes and the transition is sent on the wire;
analogue pins accept only ANALOGUE_INPUT, locally with no I/O; every
other request raises NotSupportedByHardware with no I/O and no state
change. -/
def set_gpio_pin_mode (s : SBArduinoState) (identifier : Nat)
    (pin_mode : GPIOPinMode) (resp : List String) : OpResult Unit :=
  if isDigitalPin identifier then
    if digitalPinModes.contains pin_mode then
      let pins := updatePin s.digital_pins identifier
        ⟨pin_mode, (s.digital_pins identifier).state⟩
      match update_digital_pin pins identifier resp with
      | .error e => ⟨.error e, s, "W " ++ toString identifier ++ " " ++
          ((modeCode pin_mode (s.digital_pins identifier).state).getD "") ++ "\n", resp⟩
      | .ok (sent, rest) => ⟨.ok (), ⟨pins⟩, sent, rest⟩
    else
      ⟨.error (.NotSupportedByHardware "Hardware does not support this pin mode"),
        s, "", resp⟩
  else if isAnaloguePin identifier then
    if pin_mode = .ANALOGUE_INPUT then ⟨.ok (), s, "", resp⟩
    else
      ⟨.error (.NotSupportedByHardware "Hardware does not support this pin mode"),
        s, "", resp⟩
  else
    ⟨.error (.NotSupportedByHardware "Pin does not exist"), s, "", resp⟩

/-- Modelled from the spec: get_gpio_pin_mode.  Purely local, no round
trip: a digital pin reports its stored mode, an analogue pin is always in
ANALOGUE_INPUT. -/
def get_gpio_pin_mode (s : SBArduinoState) (identifier : Nat) :
    Except JError GPIOPinMode :=
  if isDigitalPin identifier then .ok (s.digital_pins identifier).mode
  else if isAnaloguePin identifier then .ok .ANALOGUE_INPUT
  else .error (.NotSupportedByHardware "Pin does not exist")

/-- Modelled from the spec: write_gpio_pin_digital_state.  The pin must be
digital-capable and in DIGITAL_OUTPUT mode (checked locally, before any
I/O); the level is stored locally and sent on the wire. -/
def write_gpio_pin_digital_state (s : SBArduinoState) (identifier : Nat)
    (v : Bool) (resp : List String) : OpResult Unit :=
  if isDigitalPin identifier then
    if (s.digital_pins identifier).mode = .DIGITAL_OUTPUT then
      let pins := updatePin s.digital_pins identifier ⟨.DIGITAL_OUTPUT, v⟩
      match update_digital_pin pins identifier resp with
      | .error e => ⟨.error e, s,
          "W " ++ toString identifier ++ " " ++ (if v then "H" else "L") ++ "\n", resp⟩
      | .ok (sent, rest) => ⟨.ok (), ⟨pins⟩, sent, rest⟩
    else
      ⟨.error (.PreconditionViolation "Pin must be in DIGITAL_OUTPUT mode"),
        s, "", resp⟩
  else
    ⟨.error (.NotSupportedByHardware "Digital functions not supported on this pin"),
      s, "", resp⟩

/-- Modelled from the spec: get_gpio_pin_digital_state.  Purely local,
no round trip: requires DIGITAL_OUTPUT mode and reports the stored
level. -/
def get_gpio_pin_digital_state (s : SBArduinoState) (identifier : Nat) :
    Except JError Bool :=
  if isDigitalPin identifier then
    if (s.digital_pins identifier).mode = .DIGITAL_OUTPUT then
      .ok (s.digital_pins identifier).state
    else .error (.PreconditionViolation "Pin must be in DIGITAL_OUTPUT mode")
  else .error (.NotSupportedByHardware "Digital functions not supported on this pin")

/-- The digital input modes, in which a round-trip read is permitted. -/
def digitalInputModes : List GPIOPinMode :=
  [.DIGITAL_INPUT, .DIGITAL_INPUT_PULLUP, .DIGITAL_INPUT_PULLDOWN]

/-- Modelled from the spec: read_gpio_pin_digital_state.  Always a round
trip: requires a digital-capable pin in an input mode, sends the read
command and interprets the single data payload, H for high and L for low;
any other payload is a communication error.  The local mirror is not
touched. -/
def read_gpio_pin_digital_state (s : SBArduinoState) (identifier : Nat)
    (resp : List String) : OpResult Bool :=
  if isDigitalPin identifier then
    if digitalInputModes.contains (s.digital_pins identifier).mode then
      let message := "R " ++ toString identifier ++ "\n"
      match command message resp with
      | .error e => ⟨.error e, s, message, resp⟩
      | .ok (results, rest) =>
        match results with
        | ["H"] => ⟨.ok true, s, message, rest⟩
        | ["L"] => ⟨.ok false, s, message, rest⟩
        | _ => ⟨.error (.CommunicationError "Invalid response from Arduino"),
            s, message, rest⟩
    else
      ⟨.error (.PreconditionViolation "Pin must be in an input mode"), s, "", resp⟩
  else
    ⟨.error (.NotSupportedByHardware "Digital functions not supported on this pin"),
      s, "", resp⟩

/-- Voltage represented by a raw 10-bit analogue count against the fixed
5.0 volt reference: raw divided by 1024, times 5 (section 4.3). -/
def voltageOf (raw : Nat) : ℚ := ((raw : ℚ) / 1024) * 5

/-- Select, among the drained analogue data payloads, the raw count of
the requested channel: a payload reads as the channel tag, a space and
the decimal count. -/
def findChannel (channel : Nat) : List String → Option Nat
  | [] => none
  | line :: rest =>
    let cp := splitFirst line
    if cp.1 = "a" ++ toString channel then charsToNat? cp.2.data
    else findChannel channel rest

/-- Modelled from the spec: read_gpio_pin_analogue_value.  Requires an
analogue-capable pin; sends the read-all command, drains one data line per
channel, selects the line matching the requested channel index and
converts its raw count to a voltage. -/
def read_gpio_pin_analogue_value (s : SBArduinoState) (identifier : Nat)
    (resp : List String) : OpResult ℚ :=
  if isAnaloguePin identifier then
    let message := "A\n"
    match command message resp with
    | .error e => ⟨.error e, s, message, resp⟩
    | .ok (results, rest) =>
      match findChannel (identifier - 14) results with
      | some raw => ⟨.ok (voltageOf raw), s, message, rest⟩
      | none => ⟨.error (.CommunicationError "Invalid response from Arduino"),
          s, message, rest⟩
  else
    ⟨.error (.NotSupportedByHardware "Analogue functions not supported on this pin"),
      s, "", resp⟩

/-- Modelled from the spec: the forced pin-mode side effect of the
ultrasonic operations: the trigger pin goes to DIGITAL_OUTPUT with level
low, the echo pin to DIGITAL_INPUT, in that order (the test suite fixes
the order: on a shared pin the echo assignment is the one that
remains). -/
def update_ultrasound_pin_modes (pins : Nat → DigitalPinData)
    (trigger_pin echo_pin : Nat) : Nat → DigitalPinData :=
  let p1 := updatePin pins trigger_pin ⟨.DIGITAL_OUTPUT, false⟩
  updatePin p1 echo_pin ⟨.DIGITAL_INPUT, (p1 echo_pin).state⟩

/-- Modelled from the spec: get_ultrasound_pulse.  Sends the trigger
command, reads one data payload holding the pulse width in microseconds;
zero is the distinguished no-reading outcome.  Both pins are forced into
known modes as an observable side effect. -/
def get_ultrasound_pulse (s : SBArduinoState) (trigger_pin echo_pin : Nat)
    (resp : List String) : OpResult (Option Nat) :=
  let message := "T " ++ toString trigger_pin ++ " " ++ toString echo_pin ++ "\n"
  match command message resp with
  | .error e => ⟨.error e, s, message, resp⟩
  | .ok (results, rest) =>
    let pins := update_ultrasound_pin_modes s.digital_pins trigger_pin echo_pin
    match results with
    | [payload] =>
      match charsToNat? payload.data with
      | some 0 => ⟨.ok none, ⟨pins⟩, message, rest⟩
      | some micros => ⟨.ok (some micros), ⟨pins⟩, message, rest⟩
      | none => ⟨.error (.CommunicationError "Invalid response from Arduino"),
          s, message, rest⟩
    | _ => ⟨.error (.CommunicationError "Invalid response from Arduino"),
        s, message, rest⟩

/-- Modelled from the spec: get_ultrasound_distance.  Like the pulse
operation but firmware-converted: the payload is a distance in
millimetres, returned in metres; zero is the no-reading outcome. -/
def get_ultrasound_distance (s : SBArduinoState) (trigger_pin echo_pin : Nat)
    (resp : List String) : OpResult (Option ℚ) :=
  let message := "U " ++ toString trigger_pin ++ " " ++ toString echo_pin ++ "\n"
  match command message resp with
  | .error e => ⟨.error e, s, message, resp⟩
  | .ok (results, rest) =>
    let pins := update_ultrasound_pin_modes s.digital_pins trigger_pin echo_pin
    match results with
    | [payload] =>
      match charsToNat? payload.data with
      | some 0 => ⟨.ok none, ⟨pins⟩, message, rest⟩
      | some mm => ⟨.ok (some ((mm : ℚ) / 1000)), ⟨pins⟩, message, rest⟩
      | none => ⟨.error (.CommunicationError "Invalid response from Arduino"),
          s, message, rest⟩
    | _ => ⟨.error (.CommunicationError "Invalid response from Arduino"),
        s, message, rest⟩

/-- Modelled from the spec: the firmware version text is extracted from
the firmware-identification line as the text after the first letter v (the
identification line of the tests reads like a comment marker, the board
family name, the letter v and the dotted version). -/
def firmwareVersionOf (line : String) : String :=
  match splitOnChar 'v' line.data with
  | _ :: v :: _ => ⟨v⟩
  | _ => ""

/-- Parse a dotted three-component version text into a (major, minor,
patch) tuple of naturals; any other shape fails. -/
def versionTriple (version : String) : Option (Nat × Nat × Nat) :=
  match (splitOnChar '.' version.data).map charsToNat? with
  | [some a, some b, some c] => some (a, b, c)
  | _ => none

/-- Strict tuple ordering on (major, minor, patch) version tuples. -/
def versionLt (a b : Nat × Nat × Nat) : Bool :=
  a.1 < b.1 || (a.1 = b.1 && (a.2.1 < b.2.1 || (a.2.1 = b.2.1 && a.2.2 < b.2.2)))

/-- The fixed minimum firmware version the engine accepts. -/
def minimumVersion : Nat × Nat × Nat := (2019, 6, 0)

/-- Fresh local state: every digital pin in DIGITAL_INPUT with level
low. -/
def initialPins : Nat → DigitalPinData :=
  fun _ => ⟨.DIGITAL_INPUT, false⟩

/-- The digital-capable pin identifiers in ascending order, 2 to 13. -/
def digitalPinIds : List Nat := List.range' 2 12

/-- Modelled from the spec: the post-handshake loop of the constructor,
sending the stored (tri-state input) mode command for each digital pin in
ascending identifier order and consuming one acknowledgement per pin.
Returns the concatenation of the bytes sent and the unread remainder of
the response stream. -/
def sendInitialModes (pins : Nat → DigitalPinData) :
    List Nat → List String → Except JError (String × List String)
  | [], resp => .ok ("", resp)
  | i :: rest, resp =>
    match update_digital_pin pins i resp with
    | .error e => .error e
    | .ok (sent, resp1) =>
      match sendInitialModes pins rest resp1 with
      | .error e => .error e
      | .ok (sentRest, resp2) => .ok (sent ++ sentRest, resp2)

/-- Modelled from the spec: the SBArduinoHardwareBackend constructor.
Reads and discards the initial banner line, reads the
firmware-identification line, parses the (major, minor, patch) tuple and
compares it to the fixed minimum by tuple ordering — a version below the
minimum fails with a communication error naming the received version —
then sets every digital-capable pin to tri-state input in ascending
order.  On success it returns the fresh local state, the full byte
transcript sent, and the unread remainder of the response stream. -/
def construct (resp : List String) :
    Except JError (SBArduinoState × String × List String) :=
  match resp with
  | _banner :: versionLine :: rest =>
    let version := firmwareVersionOf versionLine
    match versionTriple version with
    | none => .error (.CommunicationError ("Unable to parse version number: " ++ version))
    | some v =>
      if versionLt v minimumVersion then
        .error (.CommunicationError ("Unsupported firmware version: " ++ version))
      else
        match sendInitialModes initialPins digitalPinIds rest with
        | .error e => .error e
        | .ok (sent, rest2) => .ok (⟨initialPins⟩, sent, rest2)
  | _ => .error (.CommunicationError "Timeout on serial read.")

/-- The response stream the standard mock serial device presents to the
constructor: a banner line, the firmware-identification line for the
given version, and one acknowledgement per digital pin. -/
def constructorResp (version : String) : List String :=
  "# Booted" :: ("# SBDuino GPIO v" ++ version) :: List.replicate 12 "+ OK"

/-- Modelled from the spec: the native fault signals of the serial
transport collaborator: an I/O timeout or a device fault carrying a
message. -/
inductive SerialFault where
  | timeout
  | deviceFault (msg : String)
  deriving DecidableEq

/-- Modelled from the spec: handle_serial_error, the transport error
classifier for the serial transport.  A wrapped call that raises no fault
returns normally; a native serial fault is converted into the single
communication-error kind. -/
def handle_serial_error {α : Type} (r : Except SerialFault α) : Except JError α :=
  match r with
  | .ok a => .ok a
  | .error .timeout => .error (.CommunicationError "Timeout on serial read.")
  | .error (.deviceFault m) =>
      .error (.CommunicationError ("Error on serial read: " ++ m))

/-- Modelled from the spec: a native USB transport fault: the original
message and an optional low-level fault code. -/
structure USBFault where
  msg : String
  errnum : Option Nat
  deriving DecidableEq

/-- The low-level fault code recognized as correlating with an unpowered
device. -/
def unpoweredErrnum : Nat := 110

/-- The diagnostic hint appended for the recognized fault code. -/
def unpoweredHint : String :=
  "; are you sure the servo board is being correctly powered?"

/-- Modelled from the spec: the message carried by the communication
error a USB fault is converted into: the original fault message,
with the diagnostic hint appended when the fault code is the recognized
unpowered-device code. -/
def usbErrorMessage (e : USBFault) : String :=
  if e.errnum = some unpoweredErrnum then e.msg ++ unpoweredHint else e.msg

/-- Modelled from the spec: handle_usb_error, the transport error
classifier for the raw USB transport.  A wrapped call that raises no
fault returns normally; a native USB fault is converted into the single
communication-error kind, preserving the original message. -/
def handle_usb_error {α : Type} (r : Except USBFault α) : Except JError α :=
  match r with
  | .ok a => .ok a
  | .error e => .error (.CommunicationError (usbErrorMessage e))

/-- Modelled from the spec: a capability interface is an immutable named
set of abstract operations, here the list of required operation names. -/
structure CapabilityInterface where
  ops : List String
  deriving DecidableEq

/-- Modelled from the spec: a component kind is a concrete feature type
tagged with the capability interface it requires. -/
structure ComponentKind where
  requires_interface : CapabilityInterface
  deriving DecidableEq

/-- Modelled from the spec: a board type advertises a fixed set of
supported component kinds, set at type-definition time. -/
structure BoardType where
  supported_components : List ComponentKind
  deriving DecidableEq

/-- Modelled from the spec: a backend definition lists the operations the
backend class implements. -/
structure BackendDef where
  implemented : List String
  deriving DecidableEq

/-- All operations the board type requires of any backend bound to it. -/
def requiredOps (board : BoardType) : List String :=
  (board.supported_components.map (fun k => k.requires_interface.ops)).flatten

/-- The required operations the backend definition does not implement. -/
def missingOps (board : BoardType) (backend : BackendDef) : List String :=
  (requiredOps board).filter (fun op => !(backend.implemented.contains op))

/-- Modelled from the spec: binding (defining) a backend class for a
board type.  The contract is checked once, at definition time, before any
instance exists: if the backend lacks an operation required by any
component kind the board advertises, definition fails with a fatal
contract violation naming a missing operation; otherwise the class is
defined. -/
def defineBackend (board : BoardType) (backend : BackendDef) :
    Except JError BackendDef :=
  match missingOps board backend with
  | [] => .ok backend
  | op :: _ =>
      .error (.ContractViolation ("Backend does not implement " ++ op))

/-- Modelled from the spec: an instance of a defined backend class.  An
instance can only be created from a successfully defined class, so a
definition-time contract violation precludes every instance. -/
structure BackendInstance where
  cls : BackendDef
  deriving DecidableEq

/-- Modelled from the spec: instantiating a backend class: possible
exactly when the class was defined. -/
def instantiateBackend (defined : Except JError BackendDef) :
    Except JError BackendInstance :=
  match defined with
  | .ok c => .ok ⟨c⟩
  | .error e => .error e

/-! Helper lemmas. -/

lemma updatePin_same (f : Nat → DigitalPinData) (i : Nat) (d : DigitalPinData) :
    updatePin f i d i = d := by
  simp [updatePin]

lemma isDigitalPin_of_bounds {p : Nat} (h2 : 2 ≤ p) (h13 : p ≤ 13) :
    isDigitalPin p = true := by
  simp only [isDigitalPin, Bool.and_eq_true, decide_eq_true_eq]
  omega

lemma splitFirst_ack : splitFirst "+ OK" = ("+", "OK") := rfl

lemma readResponse_ack (r : List String) :
    readResponse ("+ OK" :: r) = .ok ([], r) := rfl

/-- Behaviour of write_gpio_pin_digital_state on a digital pin in output
mode, against an acknowledging device. -/
lemma write_ok_of_mode (s : SBArduinoState) (r : List String) (v : Bool)
    (p : Nat) (hdig : isDigitalPin p = true)
    (hmode : (s.digital_pins p).mode = .DIGITAL_OUTPUT) :
    write_gpio_pin_digital_state s p v ("+ OK" :: r) =
      ⟨.ok (), ⟨updatePin s.digital_pins p ⟨.DIGITAL_OUTPUT, v⟩⟩,
        "W " ++ toString p ++ " " ++ (if v then "H" else "L") ++ "\n", r⟩ := by
  unfold write_gpio_pin_digital_state update_digital_pin command
  simp [hdig, hmode, updatePin_same, modeCode, readResponse_ack]

/-- Behaviour of set_gpio_pin_mode on a digital pin for a supported mode,
against an acknowledging device. -/
lemma set_mode_send (t : SBArduinoState) (r : List String) (p : Nat)
    (hdig : isDigitalPin p = true) (m : GPIOPinMode) (code : String)
    (hm : digitalPinModes.contains m = true)
    (hcode : modeCode m (t.digital_pins p).state = some code) :
    set_gpio_pin_mode t p m ("+ OK" :: r) =
      ⟨.ok (), ⟨updatePin t.digital_pins p ⟨m, (t.digital_pins p).state⟩⟩,
        "W " ++ toString p ++ " " ++ code ++ "\n", r⟩ := by
  unfold set_gpio_pin_mode update_digital_pin command
  simp [hdig, hm, updatePin_same, hcode, readResponse_ack]
  simpa using hm

/-- A failing response stream makes the per-pin mode command fail. -/
lemma update_digital_pin_of_readResponse_error (pins : Nat → DigitalPinData)
    (i : Nat) (rs : List String) (e : JError)
    (hre : readResponse rs = .error e) :
    ∃ e2, update_digital_pin pins i rs = .error e2 := by
  unfold update_digital_pin command
  rcases h : modeCode (pins i).mode (pins i).state with _ | code
  · exact ⟨.PreconditionViolation "Digital pin mode not settable", rfl⟩
  · rw [hre]
    exact ⟨e, rfl⟩

/-! Claim theorems. -/

/-- C1: for every digital-range pin identifier (2 to 13),
set_gpio_pin_mode succeeds for DIGITAL_INPUT, DIGITAL_INPUT_PULLUP and
DIGITAL_OUTPUT and a subsequent get_gpio_pin_mode returns the requested
mode, while DIGITAL_INPUT_PULLDOWN, ANALOGUE_INPUT, ANALOGUE_OUTPUT and
PWM_OUTPUT raise NotSupportedByHardware with no bytes sent, no change to
local state and no response consumed; for every analogue-range identifier
(14 to 19), only ANALOGUE_INPUT succeeds (locally, with no I/O) and every
other mode, in particular every digital mode, raises
NotSupportedByHardware. -/
theorem set_gpio_pin_mode_respects_capability_table
    (s : SBArduinoState) (r : List String) (p : Nat) :
    (2 ≤ p → p ≤ 13 →
      ((set_gpio_pin_mode s p .DIGITAL_INPUT ("+ OK" :: r)).result = .ok () ∧
        get_gpio_pin_mode
          (set_gpio_pin_mode s p .DIGITAL_INPUT ("+ OK" :: r)).state p =
          .ok .DIGITAL_INPUT) ∧
      ((set_gpio_pin_mode s p .DIGITAL_INPUT_PULLUP ("+ OK" :: r)).result = .ok () ∧
        get_gpio_pin_mode
          (set_gpio_pin_mode s p .DIGITAL_INPUT_PULLUP ("+ OK" :: r)).state p =
          .ok .DIGITAL_INPUT_PULLUP) ∧
      ((set_gpio_pin_mode s p .DIGITAL_OUTPUT ("+ OK" :: r)).result = .ok () ∧
        get_gpio_pin_mode
          (set_gpio_pin_mode s p .DIGITAL_OUTPUT ("+ OK" :: r)).state p =
          .ok .DIGITAL_OUTPUT) ∧
      set_gpio_pin_mode s p .DIGITAL_INPUT_PULLDOWN r =
        ⟨.error (.NotSupportedByHardware "Hardware does not support this pin mode"),
          s, "", r⟩ ∧
      set_gpio_pin_mode s p .ANALOGUE_INPUT r =
        ⟨.error (.NotSupportedByHardware "Hardware does not support this pin mode"),
          s, "", r⟩ ∧
      set_gpio_pin_mode s p .ANALOGUE_OUTPUT r =
        ⟨.error (.NotSupportedByHardware "Hardware does not support this pin mode"),
          s, "", r⟩ ∧
      set_gpio_pin_mode s p .PWM_OUTPUT r =
        ⟨.error (.NotSupportedByHardware "Hardware does not support this pin mode"),
          s, "", r⟩) ∧
    (14 ≤ p → p ≤ 19 →
      set_gpio_pin_mode s p .ANALOGUE_INPUT r = ⟨.ok (), s, "", r⟩ ∧
      get_gpio_pin_mode s p = .ok .ANALOGUE_INPUT ∧
      set_gpio_pin_mode s p .DIGITAL_INPUT r =
        ⟨.error (.NotSupportedByHardware "Hardware does not support this pin mode"),
          s, "", r⟩ ∧
      set_gpio_pin_mode s p .DIGITAL_INPUT_PULLUP r =
        ⟨.error (.NotSupportedByHardware "Hardware does not support this pin mode"),
          s, "", r⟩ ∧
      set_gpio_pin_mode s p .DIGITAL_INPUT_PULLDOWN r =
        ⟨.error (.NotSupportedByHardware "Hardware does not support this pin mode"),
          s, "", r⟩ ∧
      set_gpio_pin_mode s p .DIGITAL_OUTPUT r =
        ⟨.error (.NotSupportedByHardware "Hardware does not support this pin mode"),
          s, "", r⟩ ∧
      set_gpio_pin_mode s p .ANALOGUE_OUTPUT r =
        ⟨.error (.NotSupportedByHardware "Hardware does not support this pin mode"),
          s, "", r⟩ ∧
      set_gpio_pin_mode s p .PWM_OUTPUT r =
        ⟨.error (.NotSupportedByHardware "Hardware does not support this pin mode"),
          s, "", r⟩) := by
  constructor
  · intro h2 h13
    interval_cases p <;>
      exact ⟨⟨rfl, rfl⟩, ⟨rfl, rfl⟩, ⟨rfl, rfl⟩, rfl, rfl, rfl, rfl⟩
  · intro h14 h19
    interval_cases p <;>
      exact ⟨rfl, rfl, rfl, rfl, rfl, rfl, rfl, rfl⟩

/-- Witness for C1 at pin 2 (PWM_OUTPUT rejected with no I/O) and pin 14
(ANALOGUE_INPUT accepted). -/
theorem set_gpio_pin_mode_respects_capability_table_witness :
    set_gpio_pin_mode ⟨initialPins⟩ 2 .PWM_OUTPUT [] =
      ⟨.error (.NotSupportedByHardware "Hardware does not support this pin mode"),
        ⟨initialPins⟩, "", []⟩ ∧
    set_gpio_pin_mode ⟨initialPins⟩ 14 .ANALOGUE_INPUT [] =
      ⟨.ok (), ⟨initialPins⟩, "", []⟩ :=
  ⟨((set_gpio_pin_mode_respects_capability_table ⟨initialPins⟩ [] 2).1
      (by decide) (by decide)).2.2.2.2.2.2,
    ((set_gpio_pin_mode_respects_capability_table ⟨initialPins⟩ [] 14).2
      (by decide) (by decide)).1⟩

/-- C2: for a digital pin p in DIGITAL_OUTPUT mode, writing level v
succeeds, a subsequent get_gpio_pin_digital_state returns v (a purely
local call: its type takes no response stream and emits no bytes), and
the write sends the level on the wire; every transition of any state into
DIGITAL_OUTPUT sends the stored output level, defaulting to low from the
fresh state; and switching away to DIGITAL_INPUT and back to
DIGITAL_OUTPUT sends (restores) the previously written value. -/
theorem digital_output_state_persistence
    (s : SBArduinoState) (r : List String) (v : Bool) (p : Nat)
    (h2 : 2 ≤ p) (h13 : p ≤ 13)
    (hmode : (s.digital_pins p).mode = .DIGITAL_OUTPUT) :
    (write_gpio_pin_digital_state s p v ("+ OK" :: r)).result = .ok () ∧
    (write_gpio_pin_digital_state s p v ("+ OK" :: r)).sent =
      "W " ++ toString p ++ " " ++ (if v then "H" else "L") ++ "\n" ∧
    get_gpio_pin_digital_state
      (write_gpio_pin_digital_state s p v ("+ OK" :: r)).state p = .ok v ∧
    (∀ t : SBArduinoState,
      (set_gpio_pin_mode t p .DIGITAL_OUTPUT ("+ OK" :: r)).sent =
        "W " ++ toString p ++ " " ++
          (if (t.digital_pins p).state then "H" else "L") ++ "\n") ∧
    (set_gpio_pin_mode ⟨initialPins⟩ p .DIGITAL_OUTPUT ("+ OK" :: r)).sent =
      "W " ++ toString p ++ " " ++ "L" ++ "\n" ∧
    (set_gpio_pin_mode
        (set_gpio_pin_mode
          (write_gpio_pin_digital_state s p v ("+ OK" :: r)).state
          p .DIGITAL_INPUT ("+ OK" :: r)).state
        p .DIGITAL_OUTPUT ("+ OK" :: r)).sent =
      "W " ++ toString p ++ " " ++ (if v then "H" else "L") ++ "\n" := by
  have hdig := isDigitalPin_of_bounds h2 h13
  have hw := write_ok_of_mode s r v p hdig hmode
  have hsend : ∀ t : SBArduinoState,
      set_gpio_pin_mode t p .DIGITAL_OUTPUT ("+ OK" :: r) =
        ⟨.ok (), ⟨updatePin t.digital_pins p
            ⟨.DIGITAL_OUTPUT, (t.digital_pins p).state⟩⟩,
          "W " ++ toString p ++ " " ++
            (if (t.digital_pins p).state then "H" else "L") ++ "\n", r⟩ :=
    fun t => set_mode_send t r p hdig .DIGITAL_OUTPUT _ (by decide) rfl
  refine ⟨?_, ?_, ?_, ?_, ?_, ?_⟩
  · rw [hw]
  · rw [hw]
  · rw [hw]
    simp [get_gpio_pin_digital_state, hdig, updatePin_same]
  · intro t
    rw [hsend t]
  · rw [hsend ⟨initialPins⟩]
    rfl
  · have haway := set_mode_send
      (write_gpio_pin_digital_state s p v ("+ OK" :: r)).state r p hdig
      .DIGITAL_INPUT "Z" (by decide) rfl
    rw [hw] at haway
    rw [hw, haway, hsend]
    simp [updatePin_same]

/-- Witness for C2 at pin 2 on the fresh state forced into output mode. -/
theorem digital_output_state_persistence_witness :
    get_gpio_pin_digital_state
      (write_gpio_pin_digital_state
        ⟨updatePin initialPins 2 ⟨.DIGITAL_OUTPUT, false⟩⟩ 2 true ["+ OK"]).state
      2 = .ok true :=
  (digital_output_state_persistence
    ⟨updatePin initialPins 2 ⟨.DIGITAL_OUTPUT, false⟩⟩ [] true 2
    (by decide) (by decide) (by simp [updatePin_same])).2.2.1

/-- C3: the constructor parses a (major, minor, patch) version tuple from
the firmware-identification line and compares it to the fixed minimum
2019.6.0 by tuple ordering (versionLt agrees with lexicographic ordering
on triples): firmware 2018.7.0 and 2019.5.0 make construction fail with a
CommunicationError naming the received version, while 2019.6.0, 2019.6.1,
2019.7.0, 2020.1.0 and any tuple-greater parsed version make it
succeed. -/
theorem firmware_version_gate :
    construct (constructorResp "2018.7.0") =
      .error (.CommunicationError "Unsupported firmware version: 2018.7.0") ∧
    construct (constructorResp "2019.5.0") =
      .error (.CommunicationError "Unsupported firmware version: 2019.5.0") ∧
    (construct (constructorResp "2019.6.0")).isOk = true ∧
    (construct (constructorResp "2019.6.1")).isOk = true ∧
    (construct (constructorResp "2019.7.0")).isOk = true ∧
    (construct (constructorResp "2020.1.0")).isOk = true ∧
    (∀ a b : Nat × Nat × Nat,
      versionLt a b = true ↔
        Prod.Lex (· < ·) (Prod.Lex (· < ·) (· < ·)) a b) ∧
    (∀ (line : String) (v : Nat × Nat × Nat),
      versionTriple (firmwareVersionOf line) = some v →
      (versionLt v minimumVersion = false →
        (construct ("# Booted" :: line :: List.replicate 12 "+ OK")).isOk = true) ∧
      (versionLt v minimumVersion = true →
        construct ("# Booted" :: line :: List.replicate 12 "+ OK") =
          .error (.CommunicationError
            ("Unsupported firmware version: " ++ firmwareVersionOf line)))) := by
  refine ⟨rfl, rfl, rfl, rfl, rfl, rfl, ?_, ?_⟩
  · intro a b
    simp only [versionLt, Prod.lex_def, Bool.or_eq_true, Bool.and_eq_true,
      decide_eq_true_eq]
  · intro line v hparse
    constructor
    · intro hlt
      dsimp only [construct]
      rw [hparse]
      dsimp only
      rw [hlt]
      rfl
    · intro hlt
      dsimp only [construct]
      rw [hparse]
      dsimp only
      rw [hlt]
      rfl

/-- Witness for C3: the generic acceptance clause applied to a concrete
tuple-greater version. -/
theorem firmware_version_gate_witness :
    (construct ("# Booted" :: "# SBDuino GPIO v2021.4.2" ::
        List.replicate 12 "+ OK")).isOk = true :=
  ((firmware_version_gate.2.2.2.2.2.2.2
      "# SBDuino GPIO v2021.4.2" (2021, 4, 2) rfl).1) rfl

/-- C4: after a successful handshake the constructor sends exactly one
tri-state command per digital-capable pin, in ascending identifier order
2 to 13, consuming one acknowledgement per pin (with the twelve supplied
acknowledgements the remaining stream is empty, and with only eleven the
constructor fails on an exhausted stream), and afterwards every digital
pin is locally in DIGITAL_INPUT with state low. -/
theorem constructor_tristate_handshake :
    construct (constructorResp "2019.6.0") =
      .ok (⟨initialPins⟩,
        "W 2 Z\nW 3 Z\nW 4 Z\nW 5 Z\nW 6 Z\nW 7 Z\nW 8 Z\nW 9 Z\nW 10 Z\nW 11 Z\nW 12 Z\nW 13 Z\n",
        []) ∧
    String.join (digitalPinIds.map (fun i => "W " ++ toString i ++ " Z\n")) =
      "W 2 Z\nW 3 Z\nW 4 Z\nW 5 Z\nW 6 Z\nW 7 Z\nW 8 Z\nW 9 Z\nW 10 Z\nW 11 Z\nW 12 Z\nW 13 Z\n" ∧
    digitalPinIds = [2, 3, 4, 5, 6, 7, 8, 9, 10, 11, 12, 13] ∧
    construct ("# Booted" :: "# SBDuino GPIO v2019.6.0" ::
        List.replicate 11 "+ OK") =
      .error (.CommunicationError "Timeout on serial read.") ∧
    ∀ p : Nat, initialPins p = ⟨.DIGITAL_INPUT, false⟩ :=
  ⟨rfl, rfl, rfl, rfl, fun _ => rfl⟩

/-- C5: get_ultrasound_pulse sends exactly the T command line and
get_ultrasound_distance exactly the U command line (for every state,
every pin pair and every response stream); on response 2345 to T 3 4 it
returns 2345 microseconds and as an observable side effect forces trigger
pin 3 to DIGITAL_OUTPUT with state low and echo pin 4 to DIGITAL_INPUT;
on response 0 it returns the distinguished no-reading outcome none, not a
zero measurement. -/
theorem ultrasound_pulse_protocol :
    (∀ (s : SBArduinoState) (a b : Nat) (r : List String),
      (get_ultrasound_pulse s a b r).sent =
        "T " ++ toString a ++ " " ++ toString b ++ "\n") ∧
    (∀ (s : SBArduinoState) (a b : Nat) (r : List String),
      (get_ultrasound_distance s a b r).sent =
        "U " ++ toString a ++ " " ++ toString b ++ "\n") ∧
    (∀ s : SBArduinoState,
      (get_ultrasound_pulse s 3 4 ["> 2345", "+ OK"]).result = .ok (some 2345) ∧
      (get_ultrasound_pulse s 3 4 ["> 2345", "+ OK"]).state.digital_pins 3 =
        ⟨.DIGITAL_OUTPUT, false⟩ ∧
      ((get_ultrasound_pulse s 3 4 ["> 2345", "+ OK"]).state.digital_pins 4).mode =
        .DIGITAL_INPUT) ∧
    (∀ s : SBArduinoState,
      (get_ultrasound_pulse s 3 4 ["> 0", "+ OK"]).result = .ok none) := by
  refine ⟨?_, ?_, fun s => ⟨rfl, rfl, rfl⟩, fun s => rfl⟩
  · intro s a b r
    unfold get_ultrasound_pulse command
    repeat' split
    all_goals rfl
  · intro s a b r
    unfold get_ultrasound_distance command
    repeat' split
    all_goals rfl

/-- C6: read_gpio_pin_analogue_value on an analogue-range pin sends
exactly the read-all command, drains the four channel lines of the
response (nothing remains unread), selects the line whose channel index
matches the requested pin (pin 14 gets channel a0, pin 16 channel a2) and
returns the voltage rawcount divided by 1024 times 5; a raw count of 212
yields a voltage within one thousandth of 1.035. -/
theorem read_analogue_drain_select_convert :
    (∀ s : SBArduinoState,
      (read_gpio_pin_analogue_value s 14
          ["> a0 212", "> a1 535", "> a2 662", "> a3 385", "+ OK"]).result =
        .ok ((212 : ℚ) / 1024 * 5)) ∧
    (∀ s : SBArduinoState,
      (read_gpio_pin_analogue_value s 14
          ["> a0 212", "> a1 535", "> a2 662", "> a3 385", "+ OK"]).sent = "A\n") ∧
    (∀ s : SBArduinoState,
      (read_gpio_pin_analogue_value s 14
          ["> a0 212", "> a1 535", "> a2 662", "> a3 385", "+ OK"]).resp = []) ∧
    (∀ s : SBArduinoState,
      (read_gpio_pin_analogue_value s 16
          ["> a0 212", "> a1 535", "> a2 662", "> a3 385", "+ OK"]).result =
        .ok ((662 : ℚ) / 1024 * 5)) ∧
    |(212 : ℚ) / 1024 * 5 - 1035 / 1000| < 1 / 1000 ∧
    (∀ (s : SBArduinoState) (p : Nat), 14 ≤ p → p ≤ 19 →
      (read_gpio_pin_analogue_value s p
          ["> a0 212", "> a1 535", "> a2 662", "> a3 385", "+ OK"]).sent = "A\n") := by
  refine ⟨fun s => rfl, fun s => rfl, fun s => rfl, fun s => rfl,
    by rw [show (212 : ℚ) / 1024 * 5 - 1035 / 1000 = 1 / 6400 by norm_num,
        abs_of_pos (by norm_num)]; norm_num, ?_⟩
  intro s p h14 h19
  interval_cases p <;> rfl

/-- Witness for C6: the bounded clause applied at pin 15. -/
theorem read_analogue_drain_select_convert_witness :
    (read_gpio_pin_analogue_value ⟨initialPins⟩ 15
        ["> a0 212", "> a1 535", "> a2 662", "> a3 385", "+ OK"]).sent = "A\n" :=
  read_analogue_drain_select_convert.2.2.2.2.2 ⟨initialPins⟩ 15
    (by decide) (by decide)

/-- C7: a digital-read reply payload of H or L is accepted, while any
other payload raises CommunicationError and leaves the local mirror of
the pin untouched (the read operation preserves the whole state, and any
erroring set_gpio_pin_mode also preserves it); a firmware failure line
carrying a reason raises CommunicationError carrying that reason, both
during an ordinary exchange and during construction. -/
theorem malformed_response_communication_error
    (s : SBArduinoState) (r : List String)
    (hmode : (s.digital_pins 2).mode = .DIGITAL_INPUT) :
    read_gpio_pin_digital_state s 2 ("> H" :: "+ OK" :: r) =
      ⟨.ok true, s, "R 2\n", r⟩ ∧
    read_gpio_pin_digital_state s 2 ("> L" :: "+ OK" :: r) =
      ⟨.ok false, s, "R 2\n", r⟩ ∧
    read_gpio_pin_digital_state s 2 ("> X" :: "+ OK" :: r) =
      ⟨.error (.CommunicationError "Invalid response from Arduino"),
        s, "R 2\n", r⟩ ∧
    read_gpio_pin_digital_state s 2 ("- Something went wrong" :: r) =
      ⟨.error (.CommunicationError "Arduino error: Something went wrong"),
        s, "R 2\n", "- Something went wrong" :: r⟩ ∧
    construct ("# Booted" :: "# SBDuino GPIO v2019.6.0" ::
        "- Something went wrong" :: r) =
      .error (.CommunicationError "Arduino error: Something went wrong") ∧
    (∀ (t : SBArduinoState) (p : Nat) (rs : List String),
      (read_gpio_pin_digital_state t p rs).state = t) ∧
    (∀ (t : SBArduinoState) (p : Nat) (m : GPIOPinMode) (rs : List String)
        (e : JError),
      isDigitalPin p = true → digitalPinModes.contains m = true →
      readResponse rs = .error e →
      (set_gpio_pin_mode t p m rs).state = t) := by
  refine ⟨?_, ?_, ?_, ?_, rfl, ?_, ?_⟩
  · simp only [read_gpio_pin_digital_state, hmode]
    rfl
  · simp only [read_gpio_pin_digital_state, hmode]
    rfl
  · simp only [read_gpio_pin_digital_state, hmode]
    rfl
  · simp only [read_gpio_pin_digital_state, hmode]
    rfl
  · intro t p rs
    unfold read_gpio_pin_digital_state command
    repeat' split
    all_goals rfl
  · intro t p m rs e hd hc hre
    obtain ⟨e2, h2⟩ :=
      update_digital_pin_of_readResponse_error
        (updatePin t.digital_pins p ⟨m, (t.digital_pins p).state⟩) p rs e hre
    unfold set_gpio_pin_mode
    simp only [hd, hc, if_true, h2]

/-- Witness for C7 on the fresh state at pin 2. -/
theorem malformed_response_communication_error_witness :
    read_gpio_pin_digital_state ⟨initialPins⟩ 2 ["> X", "+ OK"] =
      ⟨.error (.CommunicationError "Invalid response from Arduino"),
        ⟨initialPins⟩, "R 2\n", []⟩ :=
  (malformed_response_communication_error ⟨initialPins⟩ [] rfl).2.2.1

/-- C8: the transport error classifiers convert every native transport
fault — a serial timeout, a serial device fault, a USB fault — into the
single communication-error kind; the USB conversion preserves the
original fault message exactly, and for the recognized low-level code 110
it appends the unpowered-device diagnostic hint to it; a wrapped call
that raises no fault returns normally. -/
theorem transport_fault_classifier :
    (∀ (α : Type) (a : α),
      handle_serial_error (.ok a) = .ok a ∧ handle_usb_error (.ok a) = .ok a) ∧
    handle_serial_error (.error .timeout : Except SerialFault Unit) =
      .error (.CommunicationError "Timeout on serial read.") ∧
    (∀ m : String,
      handle_serial_error (.error (.deviceFault m) : Except SerialFault Unit) =
        .error (.CommunicationError ("Error on serial read: " ++ m))) ∧
    (∀ m : String,
      handle_usb_error (.error ⟨m, some 110⟩ : Except USBFault Unit) =
        .error (.CommunicationError
          (m ++ "; are you sure the servo board is being correctly powered?"))) ∧
    (∀ (m : String) (num : Option Nat), num ≠ some 110 →
      handle_usb_error (.error ⟨m, num⟩ : Except USBFault Unit) =
        .error (.CommunicationError m)) := by
  refine ⟨fun α a => ⟨rfl, rfl⟩, rfl, fun m => rfl, fun m => rfl, ?_⟩
  intro m num h
  unfold handle_usb_error usbErrorMessage unpoweredErrnum
  dsimp only
  rw [if_neg h]

/-- Witness for C8: a USB fault with no recognized code keeps its message
unchanged. -/
theorem transport_fault_classifier_witness :
    handle_usb_error (.error ⟨"Test.", none⟩ : Except USBFault Unit) =
      .error (.CommunicationError "Test.") :=
  transport_fault_classifier.2.2.2.2 "Test." none (by decide)

/-- The capability interface of the LED component kind of the test
suite: setting and getting the LED state. -/
def ledInterface : CapabilityInterface := ⟨["set_led_state", "get_led_state"]⟩

/-- The LED component kind, requiring the LED interface. -/
def ledComponentKind : ComponentKind := ⟨ledInterface⟩

/-- A board type advertising one LED component (LEDMockBoard of the test
suite). -/
def ledMockBoard : BoardType := ⟨[ledComponentKind]⟩

/-- A board type advertising no components (MockBoard of the test
suite). -/
def mockBoard : BoardType := ⟨[]⟩

/-- A backend class implementing no operations (MockBackend of the test
suite). -/
def bareBackend : BackendDef := ⟨[]⟩

/-- A backend class implementing the LED operations. -/
def ledBackend : BackendDef := ⟨["set_led_state", "get_led_state"]⟩

/-- Defining a backend succeeds exactly when nothing required is
missing. -/
lemma defineBackend_ok_iff (board : BoardType) (backend : BackendDef) :
    defineBackend board backend = .ok backend ↔
      missingOps board backend = [] := by
  unfold defineBackend
  rcases h : missingOps board backend with _ | ⟨a, tail⟩ <;> simp [h]

/-- Nothing is missing exactly when every required operation is
implemented. -/
lemma missingOps_nil_iff (board : BoardType) (backend : BackendDef) :
    missingOps board backend = [] ↔
      ∀ op ∈ requiredOps board, op ∈ backend.implemented := by
  unfold missingOps
  rw [List.filter_eq_nil_iff]
  simp

/-- C9: defining (binding) a backend class for a board type whose
supported components require an operation the backend does not implement
fails at definition time with a fatal ContractViolation naming a missing
operation — so no instance can ever be created from it — while a backend
satisfying every required interface is defined and can be instantiated;
in general the definition succeeds exactly when every required operation
is implemented. -/
theorem backend_contract_enforcement :
    defineBackend ledMockBoard bareBackend =
      .error (.ContractViolation "Backend does not implement set_led_state") ∧
    instantiateBackend (defineBackend ledMockBoard bareBackend) =
      .error (.ContractViolation "Backend does not implement set_led_state") ∧
    defineBackend mockBoard bareBackend = .ok bareBackend ∧
    defineBackend ledMockBoard ledBackend = .ok ledBackend ∧
    instantiateBackend (defineBackend ledMockBoard ledBackend) =
      .ok ⟨ledBackend⟩ ∧
    (∀ (board : BoardType) (backend : BackendDef),
      defineBackend board backend = .ok backend ↔
        ∀ op ∈ requiredOps board, op ∈ backend.implemented) := by
  refine ⟨rfl, rfl, rfl, rfl, rfl, ?_⟩
  intro board backend
  rw [defineBackend_ok_iff, missingOps_nil_iff]

/-- Witness for C9: the general clause applied to the LED board and the
conforming backend. -/
theorem backend_contract_enforcement_witness :
    defineBackend ledMockBoard ledBackend = .ok ledBackend :=
  (backend_contract_enforcement.2.2.2.2.2 ledMockBoard ledBackend).mpr
    (by decide)

/-- C10: when the same pin serves as both trigger and echo, a successful
ultrasonic exchange leaves that pin in DIGITAL_INPUT — the echo-pin
assignment is applied after, and overrides, the trigger-pin
DIGITAL_OUTPUT assignment — both for the pulse and the distance
operation, and for every pin and prior pin map. -/
theorem ultrasound_same_pin_echo_wins :
    (∀ s : SBArduinoState,
      (get_ultrasound_pulse s 3 3 ["> 2345", "+ OK"]).result = .ok (some 2345) ∧
      (get_ultrasound_pulse s 3 3 ["> 2345", "+ OK"]).sent = "T 3 3\n" ∧
      ((get_ultrasound_pulse s 3 3 ["> 2345", "+ OK"]).state.digital_pins 3).mode =
        .DIGITAL_INPUT) ∧
    (∀ s : SBArduinoState,
      (get_ultrasound_distance s 3 3 ["> 1230", "+ OK"]).result =
        .ok (some ((1230 : ℚ) / 1000)) ∧
      (get_ultrasound_distance s 3 3 ["> 1230", "+ OK"]).sent = "U 3 3\n" ∧
      ((get_ultrasound_distance s 3 3 ["> 1230", "+ OK"]).state.digital_pins 3).mode =
        .DIGITAL_INPUT) ∧
    (∀ (pins : Nat → DigitalPinData) (t : Nat),
      (update_ultrasound_pin_modes pins t t t).mode = .DIGITAL_INPUT) := by
  refine ⟨fun s => ⟨rfl, rfl, rfl⟩, fun s => ⟨rfl, rfl, rfl⟩, ?_⟩
  intro pins t
  simp [update_ultrasound_pin_modes, updatePin_same]

end J5
